import Mathlib

/-
Shallow embedding of the habit-tracker Daily Completion Calendar and its
coordination logic, translated from
  frontend/src/app/components/daily-tracker/daily-tracker.ts  (DailyTracker)
  frontend/src/app/app.ts                                     (App.syncData)
  frontend/src/app/components/settings/settings.ts            (Settings.loadSettings)

Modelling conventions:
- A calendar date is the triple (year, month, day) with month 0-based, exactly
  as the source builds dates with `new Date(year, month, day)` at midnight.
  For components in range, the timestamp order of such dates is the
  lexicographic order on (year, month, day), which `ymdLt` implements.
- The nested `dailyLogs[dateStr][habitId]` dictionary is flattened to a total
  function to `Option Bool`: `none` is an absent entry (either the date key or
  the habit key is missing), `some true` and `some false` are stored flags.
  `getDateString` is injective on in-range dates so keying by the triple is
  equivalent to keying by the string.
- Remote I/O is modelled explicitly: mutation requests issued through the
  ApiService are collected in `calls` lists, and the remote outcome of a write
  is an input (`RemoteResult`). The `loadDailyLogs()` refetch performed in the
  locked-day branch of `toggleHabitLog` is modelled as installing the
  authoritative store contents `remoteLogs` for the viewed range.
-/

namespace HabitTracker

/-- A calendar date as constructed by `new Date(year, month, day)` in the
source, month 0-based. -/
structure YMD where
  year : Int
  month : Int
  day : Int
deriving DecidableEq, Repr

/-- Order on dates: models `dayDate.getTime() < today.getTime()` after
`setHours(0,0,0,0)`, i.e. lexicographic order on (year, month, day) for
in-range components. -/
def ymdLt (a b : YMD) : Bool :=
  decide (a.year < b.year) ||
    (decide (a.year = b.year) &&
      (decide (a.month < b.month) ||
        (decide (a.month = b.month) && decide (a.day < b.day))))

/-- The component field `dailyLogs`, flattened: date and habit id to tri-state
completion flag (`none` = absent entry). -/
def DailyLogs : Type := YMD → String → Option Bool

/-- An empty `dailyLogs` dictionary. -/
def emptyLogs : DailyLogs := fun _ _ => none

/-- Assignment `dailyLogs[dateStr][habitId] = v` (and, for `v = none`,
`delete dailyLogs[dateStr][habitId]`). -/
def updateLog (logs : DailyLogs) (date : YMD) (habit : String) (v : Option Bool) :
    DailyLogs :=
  fun d h => if d = date ∧ h = habit then v else logs d h

/-- DailyTracker.isDayCompleted: the stored flag is strict-equal `true`. -/
def isDayCompleted (logs : DailyLogs) (habit : String) (date : YMD) : Bool :=
  decide (logs date habit = some true)

/-- DailyTracker.isDayMissed: the stored flag is strict-equal `false`. -/
def isDayMissed (logs : DailyLogs) (habit : String) (date : YMD) : Bool :=
  decide (logs date habit = some false)

/-- DailyTracker.isPastDay: the cell date is strictly before today
(both taken at midnight). -/
def isPastDay (today date : YMD) : Bool := ymdLt date today

/-- DailyTracker.isToday: the cell date has the same midnight timestamp as
today. -/
def isToday (today date : YMD) : Bool := decide (date = today)

/-- DailyTracker.isDayDisabled: past days (not today) that are not completed
are disabled; a completed past day stays interactive. -/
def isDayDisabled (logs : DailyLogs) (today : YMD) (habit : String) (date : YMD) :
    Bool :=
  if isPastDay today date && !(isToday today date) then
    if isDayCompleted logs habit date then false
    else true
  else false

/-- The four day-states of the Day-State Resolver. -/
inductive DayState where
  | FUTURE
  | TODAY_PENDING
  | COMPLETED
  | MISSED_LOCKED
deriving DecidableEq, Repr

/-- The day-state the component presents for a (habit, date) cell, read off
the shared branch order of `getDayClass` and `getDayTitle` in the source: a
`true` entry is shown completed first, then today, then past days missed,
everything else future. The correspondence with the class list computed by
`getDayClass` is proved in `resolveDayState_dayClasses`. -/
def resolveDayState (logs : DailyLogs) (today : YMD) (habit : String) (date : YMD) :
    DayState :=
  if isDayCompleted logs habit date then DayState.COMPLETED
  else if isToday today date then DayState.TODAY_PENDING
  else if isPastDay today date && !(isToday today date) then DayState.MISSED_LOCKED
  else DayState.FUTURE

/-- DailyTracker.getDayClass, as the list of CSS classes pushed, in push
order. `sundayDivider` stands for `dayDate.getDay() === 0`, a pure function of
the calendar not otherwise needed here. -/
def dayClasses (logs : DailyLogs) (today : YMD) (habit : String) (date : YMD)
    (sundayDivider : Bool) : List String :=
  let base := ["day-cell"]
  let base :=
    if isDayCompleted logs habit date then base ++ ["day-completed"]
    else if isToday today date then base ++ ["day-today"]
    else if isPastDay today date && !(isToday today date) then
      if isDayMissed logs habit date || !(isDayCompleted logs habit date) then
        base ++ ["day-missed"]
      else base
    else base
  if sundayDivider then base ++ ["week-divider"] else base

/-- DailyTracker.getDayClass: the pushed classes joined with a space. -/
def getDayClass (logs : DailyLogs) (today : YMD) (habit : String) (date : YMD)
    (sundayDivider : Bool) : String :=
  String.intercalate " " (dayClasses logs today habit date sundayDivider)

/-- JS `String.prototype.padStart(2, "0")` for the strings produced here. -/
def padStart2 (s : String) : String :=
  if s.length = 0 then "00"
  else if s.length = 1 then "0" ++ s
  else s

/-- DailyTracker.getDateString: the `YYYY-MM-DD` key (month printed
1-based). -/
def getDateString (date : YMD) : String :=
  toString date.year ++ "-" ++ padStart2 (toString (date.month + 1)) ++ "-" ++
    padStart2 (toString date.day)

/-- DailyTracker.getDayTitle. -/
def getDayTitle (logs : DailyLogs) (today : YMD) (habit : String) (date : YMD) :
    String :=
  let dateStr := getDateString date
  if isDayCompleted logs habit date then dateStr ++ ": Completed"
  else if isDayMissed logs habit date then dateStr ++ ": Marked as missed (locked)"
  else if isToday today date then "Today - mark when completed"
  else if isPastDay today date then dateStr ++ ": Past day"
  else dateStr ++ ": Future day"

/-- Outcome of one `apiService.toggleLog` remote write. -/
inductive RemoteResult where
  | success
  | failure (status : Int)
deriving DecidableEq, Repr

/-- How one call of `toggleHabitLog` ends, as surfaced to the user:
`lockedLocal` is the synchronous locked-day toast issued before any network
traffic, `failedForbidden` the 403 toast, `failedTransient` the generic
failure toast. -/
inductive ToggleOutcome where
  | lockedLocal
  | ok
  | failedForbidden
  | failedTransient
deriving DecidableEq, Repr

/-- Result of one `toggleHabitLog` call: final local logs, the
`apiService.toggleLog` requests issued, and the surfaced outcome. -/
structure ToggleResult where
  logs : DailyLogs
  calls : List (String × YMD × Bool)
  outcome : ToggleOutcome

/-- DailyTracker.toggleHabitLog, run to completion against a remote write
outcome `remote`. The locked branch issues no mutation and refetches the
store (`remoteLogs`); otherwise the previous tri-state is snapshotted, the
desired value applied optimistically, the write issued, and on failure the
snapshot is restored exactly (`delete` when it was absent). -/
def toggleHabitLog (logs remoteLogs : DailyLogs) (today : YMD) (habit : String)
    (date : YMD) (completed : Bool) (remote : RemoteResult) : ToggleResult :=
  if isDayDisabled logs today habit date then
    { logs := remoteLogs, calls := [], outcome := ToggleOutcome.lockedLocal }
  else
    let previousState := logs date habit
    let logs1 := updateLog logs date habit (some completed)
    match remote with
    | RemoteResult.success =>
        { logs := logs1, calls := [(habit, date, completed)],
          outcome := ToggleOutcome.ok }
    | RemoteResult.failure status =>
        { logs := updateLog logs1 date habit previousState
          calls := [(habit, date, completed)]
          outcome :=
            if status = 403 then ToggleOutcome.failedForbidden
            else ToggleOutcome.failedTransient }

/-- A toggle whose remote write has been issued but not yet resolved: the
snapshot taken by `toggleHabitLog` before awaiting `apiService.toggleLog`. -/
structure PendingToggle where
  habit : String
  date : YMD
  prev : Option Bool
  value : Bool
deriving DecidableEq, Repr

/-- Result of the synchronous prefix of `toggleHabitLog` (everything before
the `await` of the remote write). -/
structure ToggleBeginResult where
  logs : DailyLogs
  pending : List PendingToggle
  calls : List (String × YMD × Bool)
  rejected : Bool

/-- The synchronous prefix of DailyTracker.toggleHabitLog, used to examine
interleavings: the locked-day check, the snapshot of the previous tri-state,
the optimistic local write, and the issuing of the remote write, which is then
in flight (appended to `pending`). There is no guard in the source against a
pair already present in `pending`. -/
def toggleBegin (logs remoteLogs : DailyLogs) (pending : List PendingToggle)
    (today : YMD) (habit : String) (date : YMD) (completed : Bool) :
    ToggleBeginResult :=
  if isDayDisabled logs today habit date then
    { logs := remoteLogs, pending := pending, calls := [], rejected := true }
  else
    { logs := updateLog logs date habit (some completed)
      pending := pending ++
        [{ habit := habit, date := date, prev := logs date habit, value := completed }]
      calls := [(habit, date, completed)]
      rejected := false }

/-- The continuation of DailyTracker.toggleHabitLog after the awaited remote
write resolves: keep the optimistic value on success, restore the snapshot on
failure. -/
def toggleResolve (logs : DailyLogs) (p : PendingToggle) (remote : RemoteResult) :
    DailyLogs :=
  match remote with
  | RemoteResult.success => logs
  | RemoteResult.failure _ => updateLog logs p.date p.habit p.prev

/-- The auto-mark gate computed from `localStorage.getItem("autoMarkMissed")`:
enabled when the key is absent or stores the string `true`. -/
def autoMarkEnabled (savedAutoMark : Option String) : Bool :=
  decide (savedAutoMark = none) || decide (savedAutoMark = some "true")

/-- DailyTracker.autoMarkMissedDays: the request payload sent to
`apiService.autoMarkMissedDays` (the 0-based viewing month is converted to the
1-based backend month). -/
def autoMarkMissedDaysCall (year month : Int) : Int × Int := (year, month + 1)

/-- DailyTracker.autoMarkMissedDaysIfNeeded: the list of
`apiService.autoMarkMissedDays` requests the pass issues, as a function of the
stored preference, the viewed (year, month) and today. The source issues at
most one request, for the viewed month, and only when the first of the viewed
month is before today or the viewed month is the real current month. -/
def autoMarkMissedDaysIfNeeded (savedAutoMark : Option String)
    (viewingYear viewingMonth : Int) (today : YMD) : List (Int × Int) :=
  if !autoMarkEnabled savedAutoMark then []
  else
    let viewingDate : YMD := ⟨viewingYear, viewingMonth, 1⟩
    let isPastMonth := ymdLt viewingDate today
    let isCurrentMonth :=
      decide (viewingYear = today.year) && decide (viewingMonth = today.month)
    if isPastMonth || isCurrentMonth then
      [autoMarkMissedDaysCall viewingYear viewingMonth]
    else []

/-- DailyTracker.canGoPrevious: the viewed month start is after the MIN_DATE
month start (December 2025, month index 11). -/
def canGoPrevious (viewYear viewMonth : Int) : Bool :=
  ymdLt ⟨2025, 11, 1⟩ ⟨viewYear, viewMonth, 1⟩

/-- JS `setMonth(getMonth() - 1)` on the first of a month: the previous
(year, month) with year rollover. -/
def prevMonth (viewYear viewMonth : Int) : Int × Int :=
  if viewMonth = 0 then (viewYear - 1, 11) else (viewYear, viewMonth - 1)

/-- DailyTracker.previousMonth, restricted to the auto-mark requests it
issues: after navigating back one month, auto-mark runs for the new viewed
month exactly when the preference gate is enabled and the new viewed month is
past or current. -/
def previousMonthAutoMarkRequests (savedAutoMark : Option String)
    (viewYear viewMonth : Int) (today : YMD) : List (Int × Int) :=
  if !canGoPrevious viewYear viewMonth then []
  else
    let p := prevMonth viewYear viewMonth
    let viewingDate : YMD := ⟨p.1, p.2, 1⟩
    if autoMarkEnabled savedAutoMark &&
        (ymdLt viewingDate today ||
          (decide (p.2 = today.month) && decide (p.1 = today.year))) then
      [autoMarkMissedDaysCall p.1 p.2]
    else []

/-- The browser localStorage, as a key-value map. -/
def Storage : Type := String → Option String

/-- localStorage.setItem. -/
def setItem (storage : Storage) (key value : String) : Storage :=
  fun k => if k = key then some value else storage k

/-- The Settings component fields read and written by loadSettings, with
their field initialisers from the source. -/
structure SettingsState where
  autoMarkMissed : Bool
  notificationsEnabled : Bool
  theme : String
deriving DecidableEq, Repr

/-- The Settings component's initial field values. -/
def initialSettings : SettingsState :=
  { autoMarkMissed := true, notificationsEnabled := false, theme := "dark" }

/-- Settings.loadSettings: reads the three preferences from localStorage,
defaulting and persisting `autoMarkMissed` to the string `true` and `theme`
to `dark` when absent or invalid. Returns the updated component state and
storage. -/
def loadSettings (storage : Storage) (st : SettingsState) :
    SettingsState × Storage :=
  let amPair :=
    match storage "autoMarkMissed" with
    | some s => (decide (s = "true"), storage)
    | none => (true, setItem storage "autoMarkMissed" "true")
  let st1 := { st with autoMarkMissed := amPair.1 }
  let storage1 := amPair.2
  let st2 :=
    match storage1 "notificationsEnabled" with
    | some s => { st1 with notificationsEnabled := decide (s = "true") }
    | none => st1
  let thPair :=
    match storage1 "theme" with
    | some s =>
        if s = "light" || s = "dark" then (s, storage1)
        else ("dark", setItem storage1 "theme" "dark")
    | none => ("dark", setItem storage1 "theme" "dark")
  ({ st2 with theme := thPair.1 }, thPair.2)

/-- The App component state touched by syncData: the reentrancy flag, the
persisted `lastSyncTime` localStorage value, the sync status string, the
manual-sync flag and the dropdown flag. -/
structure AppSyncState where
  isSyncing : Bool
  lastSyncTime : Option Int
  syncStatus : String
  manualSync : Bool
  dropdownOpen : Bool
deriving DecidableEq, Repr

/-- App.syncData run to completion at wall-clock `now` (milliseconds).
Returns the resulting state and whether a refresh (the `checkAuth` fetch plus
`lastSyncTime` write) was performed. Dropped when already in flight; dropped
when not manual and the last sync was under 10000 ms ago. The body of the try
block performs no awaited call, so the catch branch is unreachable and a run
always completes with status `synced`. -/
def syncData (manual : Bool) (now : Int) (st : AppSyncState) :
    AppSyncState × Bool :=
  if st.isSyncing then (st, false)
  else if !manual &&
      (match st.lastSyncTime with
       | some t => decide (now - t < 10000)
       | none => false) then (st, false)
  else
    ({ isSyncing := false, lastSyncTime := some now, syncStatus := "synced",
       manualSync := false, dropdownOpen := false }, true)

/-- Bridge between the Bool date order and its arithmetic reading. -/
lemma ymdLt_iff (a b : YMD) : ymdLt a b = true ↔
    (a.year < b.year ∨ (a.year = b.year ∧
      (a.month < b.month ∨ (a.month = b.month ∧ a.day < b.day)))) := by
  unfold ymdLt
  simp [Bool.or_eq_true, Bool.and_eq_true, decide_eq_true_eq]

/-- The date order is irreflexive. -/
lemma ymdLt_irrefl (a : YMD) : ymdLt a a = false := by
  rw [Bool.eq_false_iff]
  intro h
  rw [ymdLt_iff] at h
  omega

/-- The date order is asymmetric. -/
lemma ymdLt_asymm (a b : YMD) (h : ymdLt a b = true) : ymdLt b a = false := by
  rw [Bool.eq_false_iff]
  intro hba
  rw [ymdLt_iff] at h hba
  omega

/-- Strictly ordered dates are distinct. -/
lemma ymdLt_ne (a b : YMD) (h : ymdLt a b = true) : a ≠ b := by
  intro hab
  subst hab
  rw [ymdLt_irrefl] at h
  exact Bool.false_ne_true h

/-- Reading back the point just written. -/
lemma updateLog_same (logs : DailyLogs) (date : YMD) (habit : String)
    (v : Option Bool) : updateLog logs date habit v date habit = v := by
  unfold updateLog
  rw [if_pos ⟨rfl, rfl⟩]

/-- Writing back the snapshotted previous value is the identity, pointwise. -/
lemma updateLog_restore (logs : DailyLogs) (date : YMD) (habit : String)
    (v : Option Bool) :
    updateLog (updateLog logs date habit v) date habit (logs date habit) = logs := by
  funext d h
  unfold updateLog
  by_cases hc : d = date ∧ h = habit
  · rw [if_pos hc, hc.1, hc.2]
  · rw [if_neg hc, if_neg hc]

/-- Reading a key other than the one just written. -/
lemma setItem_other (storage : Storage) (key value k : String) (h : k ≠ key) :
    setItem storage key value k = storage k := by
  unfold setItem
  rw [if_neg h]

/-- A cell whose date equals today is never disabled. -/
lemma isDayDisabled_today (logs : DailyLogs) (today : YMD) (habit : String) :
    isDayDisabled logs today habit today = false := by
  unfold isDayDisabled isPastDay
  rw [ymdLt_irrefl]
  rfl

/-- The abstract resolver reads off exactly the state classes pushed by
`getDayClass`: COMPLETED, TODAY_PENDING and MISSED_LOCKED correspond to the
classes `day-completed`, `day-today` and `day-missed`, and FUTURE to a cell
carrying none of them. -/
lemma resolveDayState_dayClasses (logs : DailyLogs) (today : YMD)
    (habit : String) (date : YMD) (sundayDivider : Bool) :
    (resolveDayState logs today habit date = DayState.COMPLETED ↔
      "day-completed" ∈ dayClasses logs today habit date sundayDivider) ∧
    (resolveDayState logs today habit date = DayState.TODAY_PENDING ↔
      "day-today" ∈ dayClasses logs today habit date sundayDivider) ∧
    (resolveDayState logs today habit date = DayState.MISSED_LOCKED ↔
      "day-missed" ∈ dayClasses logs today habit date sundayDivider) := by
  unfold resolveDayState dayClasses
  by_cases h1 : isDayCompleted logs habit date <;>
    by_cases h2 : isToday today date <;>
      by_cases h3 : isPastDay today date <;>
        cases sundayDivider <;>
          simp [h1, h2, h3, isDayMissed]

/-- Claim C1: for every habit and every date strictly before today whose log
entry is absent or stores `false`, the day-state is MISSED_LOCKED, and a
toggle attempt fails fast with the locked-day outcome, issues no request
through the mutation transport, and installs the unchanged store contents
(in particular, when the local cache agrees with the store, the local logs
are unchanged). -/
theorem C1_missed_locked_toggle_rejected (logs remoteLogs : DailyLogs)
    (today : YMD) (habit : String) (date : YMD) (completed : Bool)
    (remote : RemoteResult)
    (hPast : ymdLt date today = true)
    (hEntry : logs date habit = none ∨ logs date habit = some false) :
    resolveDayState logs today habit date = DayState.MISSED_LOCKED ∧
    (toggleHabitLog logs remoteLogs today habit date completed remote).calls = [] ∧
    (toggleHabitLog logs remoteLogs today habit date completed remote).outcome =
      ToggleOutcome.lockedLocal ∧
    (toggleHabitLog logs remoteLogs today habit date completed remote).logs =
      remoteLogs ∧
    (remoteLogs = logs →
      (toggleHabitLog logs remoteLogs today habit date completed remote).logs =
        logs) := by
  have hne : date ≠ today := ymdLt_ne date today hPast
  have hcomp : isDayCompleted logs habit date = false := by
    unfold isDayCompleted
    rcases hEntry with h | h <;> rw [h] <;> rfl
  have htoday : isToday today date = false := by
    unfold isToday
    exact decide_eq_false hne
  have hdis : isDayDisabled logs today habit date = true := by
    unfold isDayDisabled isPastDay
    rw [hPast, htoday, hcomp]
    rfl
  refine ⟨?_, ?_, ?_, ?_, ?_⟩
  · unfold resolveDayState isPastDay
    rw [hcomp, htoday, hPast]
    rfl
  · unfold toggleHabitLog
    rw [hdis]
    rfl
  · unfold toggleHabitLog
    rw [hdis]
    rfl
  · unfold toggleHabitLog
    rw [hdis]
    rfl
  · intro hRemote
    unfold toggleHabitLog
    rw [hdis, hRemote]
    rfl

/-- Witness for C1 at a concrete input: today 2025-01-06, date 2025-01-03,
absent entry. -/
theorem C1_witness :
    resolveDayState emptyLogs ⟨2025, 0, 6⟩ "habit1" ⟨2025, 0, 3⟩ =
      DayState.MISSED_LOCKED ∧
    (toggleHabitLog emptyLogs emptyLogs ⟨2025, 0, 6⟩ "habit1" ⟨2025, 0, 3⟩ true
      RemoteResult.success).calls = [] ∧
    (toggleHabitLog emptyLogs emptyLogs ⟨2025, 0, 6⟩ "habit1" ⟨2025, 0, 3⟩ true
      RemoteResult.success).outcome = ToggleOutcome.lockedLocal ∧
    (toggleHabitLog emptyLogs emptyLogs ⟨2025, 0, 6⟩ "habit1" ⟨2025, 0, 3⟩ true
      RemoteResult.success).logs = emptyLogs ∧
    (emptyLogs = emptyLogs →
      (toggleHabitLog emptyLogs emptyLogs ⟨2025, 0, 6⟩ "habit1" ⟨2025, 0, 3⟩ true
        RemoteResult.success).logs = emptyLogs) :=
  C1_missed_locked_toggle_rejected emptyLogs emptyLogs ⟨2025, 0, 6⟩ "habit1"
    ⟨2025, 0, 3⟩ true RemoteResult.success (by decide) (Or.inl rfl)

/-- Counterexample to claim C2: with today 2025-01-06, the past day 2025-01-03
holding a `true` entry is not disabled, and a toggle back to incomplete
proceeds: it issues a remote write through the mutation transport, is not
rejected with the locked-day outcome, and applies locally. -/
theorem C2_counterexample :
    isDayDisabled (updateLog emptyLogs ⟨2025, 0, 3⟩ "habit1" (some true))
      ⟨2025, 0, 6⟩ "habit1" ⟨2025, 0, 3⟩ = false ∧
    (toggleHabitLog (updateLog emptyLogs ⟨2025, 0, 3⟩ "habit1" (some true))
      emptyLogs ⟨2025, 0, 6⟩ "habit1" ⟨2025, 0, 3⟩ false
      RemoteResult.success).calls = [("habit1", ⟨2025, 0, 3⟩, false)] ∧
    (toggleHabitLog (updateLog emptyLogs ⟨2025, 0, 3⟩ "habit1" (some true))
      emptyLogs ⟨2025, 0, 6⟩ "habit1" ⟨2025, 0, 3⟩ false
      RemoteResult.success).outcome ≠ ToggleOutcome.lockedLocal ∧
    (toggleHabitLog (updateLog emptyLogs ⟨2025, 0, 3⟩ "habit1" (some true))
      emptyLogs ⟨2025, 0, 6⟩ "habit1" ⟨2025, 0, 3⟩ false
      RemoteResult.success).logs ⟨2025, 0, 3⟩ "habit1" = some false := by
  decide

/-- Claim C2 as amended: a day holding a `true` entry is never locked,
whatever its date: `isDayDisabled` returns false for it, and a toggle back to
incomplete proceeds through the optimistic path, issuing a remote write; only
past days that are not completed are locked. -/
theorem C2_amended_completed_day_not_locked (logs remoteLogs : DailyLogs)
    (today : YMD) (habit : String) (date : YMD) (remote : RemoteResult)
    (hEntry : logs date habit = some true) :
    isDayDisabled logs today habit date = false ∧
    (toggleHabitLog logs remoteLogs today habit date false remote).calls =
      [(habit, date, false)] ∧
    (toggleHabitLog logs remoteLogs today habit date false remote).outcome ≠
      ToggleOutcome.lockedLocal := by
  have hcomp : isDayCompleted logs habit date = true := by
    unfold isDayCompleted
    rw [hEntry]
    rfl
  have hdis : isDayDisabled logs today habit date = false := by
    unfold isDayDisabled
    rw [hcomp]
    cases h : (isPastDay today date && !(isToday today date)) <;> rfl
  refine ⟨hdis, ?_, ?_⟩
  · unfold toggleHabitLog
    rw [hdis]
    cases remote <;> rfl
  · unfold toggleHabitLog
    rw [hdis]
    cases remote with
    | success => simp
    | failure status =>
        by_cases h403 : status = 403 <;> simp [h403]

/-- Witness for the amended C2 at a concrete input: today 2025-01-06,
completed past day 2025-01-03. -/
theorem C2_amended_witness :
    isDayDisabled (updateLog emptyLogs ⟨2025, 0, 3⟩ "habit2" (some true))
      ⟨2025, 0, 6⟩ "habit2" ⟨2025, 0, 3⟩ = false ∧
    (toggleHabitLog (updateLog emptyLogs ⟨2025, 0, 3⟩ "habit2" (some true))
      emptyLogs ⟨2025, 0, 6⟩ "habit2" ⟨2025, 0, 3⟩ false
      RemoteResult.success).calls = [("habit2", ⟨2025, 0, 3⟩, false)] ∧
    (toggleHabitLog (updateLog emptyLogs ⟨2025, 0, 3⟩ "habit2" (some true))
      emptyLogs ⟨2025, 0, 6⟩ "habit2" ⟨2025, 0, 3⟩ false
      RemoteResult.success).outcome ≠ ToggleOutcome.lockedLocal :=
  C2_amended_completed_day_not_locked
    (updateLog emptyLogs ⟨2025, 0, 3⟩ "habit2" (some true)) emptyLogs
    ⟨2025, 0, 6⟩ "habit2" ⟨2025, 0, 3⟩ RemoteResult.success (by decide)

/-- Counterexample to claim C3: with today 2025-01-06, the strictly future
date 2025-01-10 holding a `true` entry is classified COMPLETED, not FUTURE:
the resolved state is COMPLETED, `getDayClass` pushes `day-completed`, and
`getDayTitle` reports Completed. -/
theorem C3_counterexample :
    ymdLt ⟨2025, 0, 6⟩ ⟨2025, 0, 10⟩ = true ∧
    resolveDayState (updateLog emptyLogs ⟨2025, 0, 10⟩ "habit3" (some true))
      ⟨2025, 0, 6⟩ "habit3" ⟨2025, 0, 10⟩ = DayState.COMPLETED ∧
    DayState.COMPLETED ≠ DayState.FUTURE ∧
    getDayClass (updateLog emptyLogs ⟨2025, 0, 10⟩ "habit3" (some true))
      ⟨2025, 0, 6⟩ "habit3" ⟨2025, 0, 10⟩ false = "day-cell day-completed" ∧
    getDayTitle (updateLog emptyLogs ⟨2025, 0, 10⟩ "habit3" (some true))
      ⟨2025, 0, 6⟩ "habit3" ⟨2025, 0, 10⟩ = "2025-01-10: Completed" := by
  decide

/-- Claim C3 as amended: for every habit and every date strictly greater than
today, the resolved day-state is FUTURE when no `true` entry exists for it,
and COMPLETED when a `true` entry exists; with an absent entry the title also
reports a future day. -/
theorem C3_amended_future_state (logs : DailyLogs) (today : YMD)
    (habit : String) (date : YMD) (hFuture : ymdLt today date = true) :
    (logs date habit = some true →
      resolveDayState logs today habit date = DayState.COMPLETED) ∧
    (logs date habit ≠ some true →
      resolveDayState logs today habit date = DayState.FUTURE) ∧
    (logs date habit = none →
      getDayTitle logs today habit date = getDateString date ++ ": Future day") := by
  have hne : date ≠ today := (ymdLt_ne today date hFuture).symm
  have htoday : isToday today date = false := by
    unfold isToday
    exact decide_eq_false hne
  have hpast : isPastDay today date = false := by
    unfold isPastDay
    exact ymdLt_asymm today date hFuture
  refine ⟨?_, ?_, ?_⟩
  · intro h
    have hcomp : isDayCompleted logs habit date = true := by
      unfold isDayCompleted
      rw [h]
      rfl
    unfold resolveDayState
    rw [hcomp]
    rfl
  · intro h
    have hcomp : isDayCompleted logs habit date = false := by
      unfold isDayCompleted
      exact decide_eq_false h
    unfold resolveDayState
    rw [hcomp, htoday, hpast]
    rfl
  · intro h
    have hcomp : isDayCompleted logs habit date = false := by
      unfold isDayCompleted
      rw [h]
      rfl
    have hmiss : isDayMissed logs habit date = false := by
      unfold isDayMissed
      rw [h]
      rfl
    unfold getDayTitle
    rw [hcomp, hmiss, htoday, hpast]
    rfl

/-- Witness for the amended C3 at a concrete input: today 2025-01-06 and the
future date 2025-01-10 with an absent entry. -/
theorem C3_amended_witness :
    (emptyLogs ⟨2025, 0, 10⟩ "habit3" = some true →
      resolveDayState emptyLogs ⟨2025, 0, 6⟩ "habit3" ⟨2025, 0, 10⟩ =
        DayState.COMPLETED) ∧
    (emptyLogs ⟨2025, 0, 10⟩ "habit3" ≠ some true →
      resolveDayState emptyLogs ⟨2025, 0, 6⟩ "habit3" ⟨2025, 0, 10⟩ =
        DayState.FUTURE) ∧
    (emptyLogs ⟨2025, 0, 10⟩ "habit3" = none →
      getDayTitle emptyLogs ⟨2025, 0, 6⟩ "habit3" ⟨2025, 0, 10⟩ =
        getDateString ⟨2025, 0, 10⟩ ++ ": Future day") :=
  C3_amended_future_state emptyLogs ⟨2025, 0, 6⟩ "habit3" ⟨2025, 0, 10⟩
    (by decide)

/-- Claim C4: for every toggle that passes the locked-day check and whose
remote write fails, the local log state is restored to exactly the
snapshotted prior tri-state at every point (in particular an absent entry
becomes absent again), the resolver reports the pre-toggle state, exactly one
mutation request was issued, and the surfaced error distinguishes the
forbidden case (HTTP 403) from the transient case (any other failure). -/
theorem C4_rollback_exact_and_error_distinction (logs remoteLogs : DailyLogs)
    (today : YMD) (habit : String) (date : YMD) (completed : Bool)
    (status : Int)
    (hDis : isDayDisabled logs today habit date = false) :
    (toggleHabitLog logs remoteLogs today habit date completed
      (RemoteResult.failure status)).logs = logs ∧
    (toggleHabitLog logs remoteLogs today habit date completed
      (RemoteResult.failure status)).calls = [(habit, date, completed)] ∧
    resolveDayState (toggleHabitLog logs remoteLogs today habit date completed
      (RemoteResult.failure status)).logs today habit date =
      resolveDayState logs today habit date ∧
    ((toggleHabitLog logs remoteLogs today habit date completed
      (RemoteResult.failure status)).outcome = ToggleOutcome.failedForbidden ↔
      status = 403) ∧
    ((toggleHabitLog logs remoteLogs today habit date completed
      (RemoteResult.failure status)).outcome = ToggleOutcome.failedTransient ↔
      ¬status = 403) := by
  have hlogs : (toggleHabitLog logs remoteLogs today habit date completed
      (RemoteResult.failure status)).logs = logs := by
    unfold toggleHabitLog
    rw [hDis]
    simp [updateLog_restore]
  refine ⟨hlogs, ?_, ?_, ?_, ?_⟩
  · unfold toggleHabitLog
    rw [hDis]
    rfl
  · rw [hlogs]
  · unfold toggleHabitLog
    rw [hDis]
    by_cases h403 : status = 403 <;> simp [h403]
  · unfold toggleHabitLog
    rw [hDis]
    by_cases h403 : status = 403 <;> simp [h403]

/-- Witness for C4 at a concrete input: today 2025-01-06, toggling today with
an absent prior entry, remote failure with status 500. -/
theorem C4_witness :
    (toggleHabitLog emptyLogs emptyLogs ⟨2025, 0, 6⟩ "habit4" ⟨2025, 0, 6⟩ true
      (RemoteResult.failure 500)).logs = emptyLogs ∧
    (toggleHabitLog emptyLogs emptyLogs ⟨2025, 0, 6⟩ "habit4" ⟨2025, 0, 6⟩ true
      (RemoteResult.failure 500)).calls = [("habit4", ⟨2025, 0, 6⟩, true)] ∧
    resolveDayState (toggleHabitLog emptyLogs emptyLogs ⟨2025, 0, 6⟩ "habit4"
      ⟨2025, 0, 6⟩ true (RemoteResult.failure 500)).logs ⟨2025, 0, 6⟩ "habit4"
      ⟨2025, 0, 6⟩ = resolveDayState emptyLogs ⟨2025, 0, 6⟩ "habit4"
      ⟨2025, 0, 6⟩ ∧
    ((toggleHabitLog emptyLogs emptyLogs ⟨2025, 0, 6⟩ "habit4" ⟨2025, 0, 6⟩ true
      (RemoteResult.failure 500)).outcome = ToggleOutcome.failedForbidden ↔
      (500 : Int) = 403) ∧
    ((toggleHabitLog emptyLogs emptyLogs ⟨2025, 0, 6⟩ "habit4" ⟨2025, 0, 6⟩ true
      (RemoteResult.failure 500)).outcome = ToggleOutcome.failedTransient ↔
      ¬(500 : Int) = 403) :=
  C4_rollback_exact_and_error_distinction emptyLogs emptyLogs ⟨2025, 0, 6⟩
    "habit4" ⟨2025, 0, 6⟩ true 500 (by decide)

/-- Claim C7: round-trip on the date equal to today. Toggling to completed
succeeds and the resolver reports COMPLETED; toggling back to incomplete the
same day succeeds and the resolver reports TODAY_PENDING; neither toggle
raises the locked-day error. -/
theorem C7_today_toggle_roundtrip (logs remoteLogs : DailyLogs) (today : YMD)
    (habit : String) :
    (toggleHabitLog logs remoteLogs today habit today true
      RemoteResult.success).outcome = ToggleOutcome.ok ∧
    resolveDayState (toggleHabitLog logs remoteLogs today habit today true
      RemoteResult.success).logs today habit today = DayState.COMPLETED ∧
    (toggleHabitLog (toggleHabitLog logs remoteLogs today habit today true
      RemoteResult.success).logs remoteLogs today habit today false
      RemoteResult.success).outcome = ToggleOutcome.ok ∧
    resolveDayState (toggleHabitLog (toggleHabitLog logs remoteLogs today habit
      today true RemoteResult.success).logs remoteLogs today habit today false
      RemoteResult.success).logs today habit today = DayState.TODAY_PENDING := by
  have htoday : isToday today today = true := by
    unfold isToday
    exact decide_eq_true rfl
  have hstep1 : (toggleHabitLog logs remoteLogs today habit today true
      RemoteResult.success).logs = updateLog logs today habit (some true) := by
    unfold toggleHabitLog
    rw [isDayDisabled_today]
    rfl
  have hstep1o : (toggleHabitLog logs remoteLogs today habit today true
      RemoteResult.success).outcome = ToggleOutcome.ok := by
    unfold toggleHabitLog
    rw [isDayDisabled_today]
    rfl
  have hcomp1 : isDayCompleted (updateLog logs today habit (some true)) habit
      today = true := by
    unfold isDayCompleted
    rw [updateLog_same]
    rfl
  have hstep2 : (toggleHabitLog (updateLog logs today habit (some true))
      remoteLogs today habit today false RemoteResult.success).logs =
      updateLog (updateLog logs today habit (some true)) today habit
        (some false) := by
    unfold toggleHabitLog
    rw [isDayDisabled_today]
    rfl
  have hcomp2 : isDayCompleted (updateLog (updateLog logs today habit
      (some true)) today habit (some false)) habit today = false := by
    unfold isDayCompleted
    rw [updateLog_same]
    rfl
  refine ⟨hstep1o, ?_, ?_, ?_⟩
  · rw [hstep1]
    unfold resolveDayState
    rw [hcomp1]
    rfl
  · rw [hstep1]
    unfold toggleHabitLog
    rw [isDayDisabled_today]
    rfl
  · rw [hstep1, hstep2]
    unfold resolveDayState
    rw [hcomp2, htoday]
    rfl

/-- Claim C5: whenever the stored auto-mark preference holds any string other
than `true` (in particular `false`), neither reconciliation entry point — the
shared pass used by initial load and the settings trigger, nor the
previous-month navigation — issues any auto-mark request to the mutation
boundary. -/
theorem C5_disabled_pref_never_writes (s : String) (viewYear viewMonth : Int)
    (today : YMD) (hs : s ≠ "true") :
    autoMarkMissedDaysIfNeeded (some s) viewYear viewMonth today = [] ∧
    previousMonthAutoMarkRequests (some s) viewYear viewMonth today = [] := by
  have hen : autoMarkEnabled (some s) = false := by
    unfold autoMarkEnabled
    simp [hs]
  constructor
  · unfold autoMarkMissedDaysIfNeeded
    rw [hen]
    rfl
  · unfold previousMonthAutoMarkRequests
    rw [hen]
    simp

/-- Witness for C5 at a concrete input: stored preference `false`, viewing
January 2025, today 2025-01-06. -/
theorem C5_witness :
    autoMarkMissedDaysIfNeeded (some "false") 2025 0 ⟨2025, 0, 6⟩ = [] ∧
    previousMonthAutoMarkRequests (some "false") 2025 0 ⟨2025, 0, 6⟩ = [] :=
  C5_disabled_pref_never_writes "false" 2025 0 ⟨2025, 0, 6⟩ (by decide)

/-- Counterexample to claim C6: viewing December 2025 (month index 11) while
today is 2026-02-15, the pass issues only the request for the viewed month
(backend payload (2025, 12)); the real current month, February 2026 (backend
payload (2026, 2)), differs from the viewed month yet receives no request. -/
theorem C6_counterexample :
    autoMarkMissedDaysIfNeeded none 2025 11 ⟨2026, 1, 15⟩ = [(2025, 12)] ∧
    (2026, 2) ∉ autoMarkMissedDaysIfNeeded none 2025 11 ⟨2026, 1, 15⟩ ∧
    ¬((2025 : Int) = 2026 ∧ (11 : Int) = 1) := by
  decide

/-- Claim C6 as amended: every reconciliation trigger issues at most the
single request for the month currently in view — for the shared pass used by
initial load and the settings trigger that is the viewed month itself, for
the month-navigation trigger it is the newly viewed month — and only when
the first of that month is before today or that month is the real current
month; a future viewed month receives no request, and the real current month
is never additionally reconciled when a different month is in view. -/
theorem C6_amended_viewed_month_only (savedAutoMark : Option String)
    (viewYear viewMonth : Int) (today : YMD) :
    (autoMarkMissedDaysIfNeeded savedAutoMark viewYear viewMonth today = [] ∨
      autoMarkMissedDaysIfNeeded savedAutoMark viewYear viewMonth today =
        [(viewYear, viewMonth + 1)]) ∧
    (ymdLt ⟨viewYear, viewMonth, 1⟩ today = false →
      ¬(viewYear = today.year ∧ viewMonth = today.month) →
      autoMarkMissedDaysIfNeeded savedAutoMark viewYear viewMonth today = []) ∧
    (previousMonthAutoMarkRequests savedAutoMark viewYear viewMonth today = [] ∨
      previousMonthAutoMarkRequests savedAutoMark viewYear viewMonth today =
        [((prevMonth viewYear viewMonth).1,
          (prevMonth viewYear viewMonth).2 + 1)]) ∧
    (ymdLt ⟨(prevMonth viewYear viewMonth).1, (prevMonth viewYear viewMonth).2,
        1⟩ today = false →
      ¬((prevMonth viewYear viewMonth).1 = today.year ∧
        (prevMonth viewYear viewMonth).2 = today.month) →
      previousMonthAutoMarkRequests savedAutoMark viewYear viewMonth today =
        []) := by
  refine ⟨?_, ?_, ?_, ?_⟩
  · unfold autoMarkMissedDaysIfNeeded autoMarkMissedDaysCall
    split
    · exact Or.inl rfl
    · dsimp only
      split
      · exact Or.inr rfl
      · exact Or.inl rfl
  · intro h1 h2
    unfold autoMarkMissedDaysIfNeeded
    split
    · rfl
    · dsimp only
      have hcm : (decide (viewYear = today.year) &&
          decide (viewMonth = today.month)) = false := by
        by_cases hy : viewYear = today.year
        · by_cases hm : viewMonth = today.month
          · exact absurd ⟨hy, hm⟩ h2
          · simp [hm]
        · simp [hy]
      rw [h1, hcm]
      rfl
  · unfold previousMonthAutoMarkRequests autoMarkMissedDaysCall
    split
    · exact Or.inl rfl
    · dsimp only
      split
      · exact Or.inr rfl
      · exact Or.inl rfl
  · intro h1 h2
    unfold previousMonthAutoMarkRequests
    split
    · rfl
    · dsimp only
      have hcm : (decide ((prevMonth viewYear viewMonth).2 = today.month) &&
          decide ((prevMonth viewYear viewMonth).1 = today.year)) = false := by
        by_cases hm : (prevMonth viewYear viewMonth).2 = today.month
        · by_cases hy : (prevMonth viewYear viewMonth).1 = today.year
          · exact absurd ⟨hy, hm⟩ h2
          · simp [hy]
        · simp [hm]
      rw [h1, hcm]
      simp

/-- Witness for the amended C6 at concrete inputs: with today 2026-02-15, the
shared pass viewing the future month May 2026 issues no request, and the
month-navigation trigger leaving June 2026 (arriving at the still-future May
2026) issues no request either. -/
theorem C6_amended_witness :
    autoMarkMissedDaysIfNeeded none 2026 4 ⟨2026, 1, 15⟩ = [] ∧
    previousMonthAutoMarkRequests none 2026 5 ⟨2026, 1, 15⟩ = [] :=
  ⟨(C6_amended_viewed_month_only none 2026 4 ⟨2026, 1, 15⟩).2.1 (by decide)
      (by decide),
    (C6_amended_viewed_month_only none 2026 5 ⟨2026, 1, 15⟩).2.2.2 (by decide)
      (by decide)⟩

/-- Claim C8: for App.syncData — starting from an idle state with no recorded
last sync, a first non-manual invocation at time t0 performs the refresh; a
second non-manual invocation at time t1 within the 10-second debounce window
is dropped, so the two result in exactly one refresh; a manual invocation at
the same time t1 still proceeds; and any invocation arriving while a prior
sync is in flight is dropped with the state unchanged. -/
theorem C8_sync_debounce_manual_reentrancy (status0 : String) (m0 d0 : Bool)
    (t0 t1 now : Int) (manual2 : Bool) (stFlight : AppSyncState)
    (h01 : t1 - t0 < 10000) (hFlight : stFlight.isSyncing = true) :
    (syncData false t0 ⟨false, none, status0, m0, d0⟩).2 = true ∧
    (syncData false t1 (syncData false t0 ⟨false, none, status0, m0, d0⟩).1).2 =
      false ∧
    (syncData true t1 (syncData false t0 ⟨false, none, status0, m0, d0⟩).1).2 =
      true ∧
    syncData manual2 now stFlight = (stFlight, false) := by
  have h1 : syncData false t0 ⟨false, none, status0, m0, d0⟩ =
      (⟨false, some t0, "synced", false, false⟩, true) := by
    unfold syncData
    rfl
  refine ⟨?_, ?_, ?_, ?_⟩
  · rw [h1]
  · rw [h1]
    unfold syncData
    simp [h01]
  · rw [h1]
    unfold syncData
    rfl
  · unfold syncData
    rw [hFlight]
    rfl

/-- Witness for C8 at a concrete input: t0 = 0, t1 = 5000 (inside the
10-second window), and an in-flight state. -/
theorem C8_witness :
    (syncData false 0 ⟨false, none, "synced", false, false⟩).2 = true ∧
    (syncData false 5000 (syncData false 0
      ⟨false, none, "synced", false, false⟩).1).2 = false ∧
    (syncData true 5000 (syncData false 0
      ⟨false, none, "synced", false, false⟩).1).2 = true ∧
    syncData false 7000 ⟨true, none, "syncing", false, false⟩ =
      (⟨true, none, "syncing", false, false⟩, false) :=
  C8_sync_debounce_manual_reentrancy "synced" false false 0 5000 7000 false
    ⟨true, none, "syncing", false, false⟩ (by decide) rfl

/-- Counterexample to claim C9: with today 2025-01-06, a first toggle of
(habit9, today) to completed is in flight (one pending write); a second
toggle of the same pair to incomplete is not rejected: it passes the
locked-day check, issues its own remote write, applies locally, and joins the
in-flight list (two pending writes), snapshotting the optimistic value
written by the first toggle. -/
theorem C9_counterexample :
    (toggleBegin
      (toggleBegin emptyLogs emptyLogs [] ⟨2025, 0, 6⟩ "habit9" ⟨2025, 0, 6⟩
        true).logs
      emptyLogs
      (toggleBegin emptyLogs emptyLogs [] ⟨2025, 0, 6⟩ "habit9" ⟨2025, 0, 6⟩
        true).pending
      ⟨2025, 0, 6⟩ "habit9" ⟨2025, 0, 6⟩ false).rejected = false ∧
    (toggleBegin
      (toggleBegin emptyLogs emptyLogs [] ⟨2025, 0, 6⟩ "habit9" ⟨2025, 0, 6⟩
        true).logs
      emptyLogs
      (toggleBegin emptyLogs emptyLogs [] ⟨2025, 0, 6⟩ "habit9" ⟨2025, 0, 6⟩
        true).pending
      ⟨2025, 0, 6⟩ "habit9" ⟨2025, 0, 6⟩ false).calls =
      [("habit9", ⟨2025, 0, 6⟩, false)] ∧
    (toggleBegin
      (toggleBegin emptyLogs emptyLogs [] ⟨2025, 0, 6⟩ "habit9" ⟨2025, 0, 6⟩
        true).logs
      emptyLogs
      (toggleBegin emptyLogs emptyLogs [] ⟨2025, 0, 6⟩ "habit9" ⟨2025, 0, 6⟩
        true).pending
      ⟨2025, 0, 6⟩ "habit9" ⟨2025, 0, 6⟩ false).logs ⟨2025, 0, 6⟩ "habit9" =
      some false ∧
    (toggleBegin
      (toggleBegin emptyLogs emptyLogs [] ⟨2025, 0, 6⟩ "habit9" ⟨2025, 0, 6⟩
        true).logs
      emptyLogs
      (toggleBegin emptyLogs emptyLogs [] ⟨2025, 0, 6⟩ "habit9" ⟨2025, 0, 6⟩
        true).pending
      ⟨2025, 0, 6⟩ "habit9" ⟨2025, 0, 6⟩ false).pending =
      [⟨"habit9", ⟨2025, 0, 6⟩, none, true⟩,
       ⟨"habit9", ⟨2025, 0, 6⟩, some true, false⟩] := by
  decide

/-- Claim C9 as amended: the toggle path has no per-(habit, date) in-flight
guard. Whatever writes are already pending — including writes for the same
pair — a toggle attempt that passes the locked-day check proceeds: it issues
its own remote write, applies its value locally, and appends itself to the
in-flight list, snapshotting the current (possibly optimistic) local value. -/
theorem C9_amended_no_inflight_guard (logs remoteLogs : DailyLogs)
    (pending : List PendingToggle) (today : YMD) (habit : String) (date : YMD)
    (completed : Bool)
    (hDis : isDayDisabled logs today habit date = false) :
    (toggleBegin logs remoteLogs pending today habit date completed).rejected =
      false ∧
    (toggleBegin logs remoteLogs pending today habit date completed).calls =
      [(habit, date, completed)] ∧
    (toggleBegin logs remoteLogs pending today habit date completed).pending =
      pending ++ [⟨habit, date, logs date habit, completed⟩] ∧
    (toggleBegin logs remoteLogs pending today habit date completed).logs date
      habit = some completed := by
  unfold toggleBegin
  rw [hDis]
  exact ⟨rfl, rfl, rfl, updateLog_same logs date habit (some completed)⟩

/-- Witness for the amended C9 at a concrete input: a write for the same pair
(habit9b, 2025-01-06) is already in flight, and a second toggle for it still
proceeds. -/
theorem C9_amended_witness :
    (toggleBegin (updateLog emptyLogs ⟨2025, 0, 6⟩ "habit9b" (some true))
      emptyLogs
      [{ habit := "habit9b", date := ⟨2025, 0, 6⟩, prev := none, value := true }]
      ⟨2025, 0, 6⟩ "habit9b" ⟨2025, 0, 6⟩ false).rejected = false ∧
    (toggleBegin (updateLog emptyLogs ⟨2025, 0, 6⟩ "habit9b" (some true))
      emptyLogs
      [{ habit := "habit9b", date := ⟨2025, 0, 6⟩, prev := none, value := true }]
      ⟨2025, 0, 6⟩ "habit9b" ⟨2025, 0, 6⟩ false).calls =
      [("habit9b", ⟨2025, 0, 6⟩, false)] ∧
    (toggleBegin (updateLog emptyLogs ⟨2025, 0, 6⟩ "habit9b" (some true))
      emptyLogs
      [{ habit := "habit9b", date := ⟨2025, 0, 6⟩, prev := none, value := true }]
      ⟨2025, 0, 6⟩ "habit9b" ⟨2025, 0, 6⟩ false).pending =
      [{ habit := "habit9b", date := ⟨2025, 0, 6⟩, prev := none, value := true }]
        ++ [⟨"habit9b", ⟨2025, 0, 6⟩,
          updateLog emptyLogs ⟨2025, 0, 6⟩ "habit9b" (some true)
            ⟨2025, 0, 6⟩ "habit9b", false⟩] ∧
    (toggleBegin (updateLog emptyLogs ⟨2025, 0, 6⟩ "habit9b" (some true))
      emptyLogs
      [{ habit := "habit9b", date := ⟨2025, 0, 6⟩, prev := none, value := true }]
      ⟨2025, 0, 6⟩ "habit9b" ⟨2025, 0, 6⟩ false).logs ⟨2025, 0, 6⟩ "habit9b" =
      some false :=
  C9_amended_no_inflight_guard
    (updateLog emptyLogs ⟨2025, 0, 6⟩ "habit9b" (some true)) emptyLogs
    [{ habit := "habit9b", date := ⟨2025, 0, 6⟩, prev := none, value := true }]
    ⟨2025, 0, 6⟩ "habit9b" ⟨2025, 0, 6⟩ false (by decide)

/-- Claim C10: when the stored autoMarkMissed preference is absent, the
engine treats auto-mark as enabled — both reconciliation entry points issue
exactly the requests they would issue with the preference explicitly set to
the string `true` — and Settings.loadSettings initialises the component flag
to true and persists the stored value `true`. -/
theorem C10_absent_pref_defaults_enabled (storage : Storage)
    (st : SettingsState) (viewYear viewMonth : Int) (today : YMD)
    (hAbsent : storage "autoMarkMissed" = none) :
    (loadSettings storage st).1.autoMarkMissed = true ∧
    (loadSettings storage st).2 "autoMarkMissed" = some "true" ∧
    autoMarkMissedDaysIfNeeded none viewYear viewMonth today =
      autoMarkMissedDaysIfNeeded (some "true") viewYear viewMonth today ∧
    previousMonthAutoMarkRequests none viewYear viewMonth today =
      previousMonthAutoMarkRequests (some "true") viewYear viewMonth today := by
  have hen : autoMarkEnabled none = autoMarkEnabled (some "true") := by decide
  have hread : setItem storage "autoMarkMissed" "true" "autoMarkMissed" =
      some "true" := by
    unfold setItem
    rw [if_pos rfl]
  refine ⟨?_, ?_, ?_, ?_⟩
  · unfold loadSettings
    rw [hAbsent]
    dsimp only
    cases hn : setItem storage "autoMarkMissed" "true" "notificationsEnabled" <;>
      rfl
  · unfold loadSettings
    rw [hAbsent]
    dsimp only
    cases hth : setItem storage "autoMarkMissed" "true" "theme" with
    | none =>
        dsimp only
        rw [setItem_other (setItem storage "autoMarkMissed" "true") "theme"
          "dark" "autoMarkMissed" (by decide)]
        exact hread
    | some s =>
        dsimp only
        by_cases hls : (decide (s = "light") || decide (s = "dark")) = true
        · rw [if_pos hls]
          exact hread
        · rw [if_neg hls]
          dsimp only
          rw [setItem_other (setItem storage "autoMarkMissed" "true") "theme"
            "dark" "autoMarkMissed" (by decide)]
          exact hread
  · unfold autoMarkMissedDaysIfNeeded
    rw [hen]
  · unfold previousMonthAutoMarkRequests
    rw [hen]

/-- Witness for C10 at a concrete input: empty storage, the initial Settings
field values, viewing January 2025, today 2025-01-06. -/
theorem C10_witness :
    (loadSettings (fun _ => none) initialSettings).1.autoMarkMissed = true ∧
    (loadSettings (fun _ => none) initialSettings).2 "autoMarkMissed" =
      some "true" ∧
    autoMarkMissedDaysIfNeeded none 2025 0 ⟨2025, 0, 6⟩ =
      autoMarkMissedDaysIfNeeded (some "true") 2025 0 ⟨2025, 0, 6⟩ ∧
    previousMonthAutoMarkRequests none 2025 0 ⟨2025, 0, 6⟩ =
      previousMonthAutoMarkRequests (some "true") 2025 0 ⟨2025, 0, 6⟩ :=
  C10_absent_pref_defaults_enabled (fun _ => none) initialSettings 2025 0
    ⟨2025, 0, 6⟩ rfl

end HabitTracker
